import Mathlib

/-!
Shallow embedding of the frame-extraction scheduler and process-supervision
core of the video frame server (src/app.js, plus the quality-profile variant
in src/unnamed/part_000).  Pure functions of the source are translated to
Lean functions; the stateful pieces (the concurrency counter, the cleanup
guard, the error-management step of the frame loop) are modelled as explicit
state-transition functions mirroring the corresponding statements of the
source line by line.
-/

namespace VideoServer

/-! ## Configuration constants (src/app.js lines 38-48) -/

def WIDTH : Nat := 160
def HEIGHT : Nat := 120
def FPS : Nat := 10
def TIMEOUT_MS : Nat := 8000
def MAX_RETRIES : Nat := 3
def MAX_CONCURRENT_FFMPEG : Nat := 5
def MAX_CONSECUTIVE_ERRORS : Nat := 5

/-- `expectedSize = WIDTH * HEIGHT * 3` (src/app.js line 348). -/
def expectedSize : Nat := WIDTH * HEIGHT * 3

/-! ## Concurrency limiter (src/app.js lines 283-298, `processSingleFrame`)

`processSingleFrame` first checks `activeFFmpegCount >= MAX_CONCURRENT_FFMPEG`
and returns `null` (rejection) without touching the counter; otherwise it
increments the counter, runs the extraction, and decrements the counter in a
`finally` block on every exit path. -/

/-- Admission test of `processSingleFrame`: the request is rejected exactly
when `activeFFmpegCount >= MAX_CONCURRENT_FFMPEG` (src/app.js line 285). -/
def admitRequest (activeFFmpegCount : Nat) : Bool :=
  !(activeFFmpegCount ≥ MAX_CONCURRENT_FFMPEG)

/-- One event seen by the `activeFFmpegCount` counter: a new call to
`processSingleFrame` arriving, or an admitted call finishing (its `finally`
block running). -/
inductive LimiterEvent where
  | request
  | finish
deriving DecidableEq, Repr

/-- Effect of one event on `activeFFmpegCount`: a request increments the
counter only when admitted (src/app.js lines 285-290); a finish runs the
`finally` decrement (line 296). -/
def limiterStep (c : Nat) : LimiterEvent → Nat
  | .request => if admitRequest c then c + 1 else c
  | .finish => c - 1

/-- The counter after a sequence of events, starting from the initial value
`activeFFmpegCount = 0` (src/app.js line 58). -/
def runLimiter (events : List LimiterEvent) : Nat :=
  events.foldl limiterStep 0

/-- Net counter effect of one `processSingleFrame` call observed in
isolation: rejected calls leave the counter alone; admitted calls increment
and then decrement it in `finally`, so the call returns the counter to its
entry value.  The `Bool` records whether the call was admitted. -/
def processSingleFrameCounter (c : Nat) : Bool × Nat :=
  if admitRequest c then (true, (c + 1) - 1) else (false, c)

/-! ## Quality profiles and `adjustQuality` (src/unnamed/part_000 lines 252-339)

`QUALITY_PROFILES` is an object with keys low, medium, high, ultra in that
insertion order; `adjustQuality` works on `Object.keys(QUALITY_PROFILES)`. -/

def QUALITY_PROFILE_NAMES : List String := ["low", "medium", "high", "ultra"]

/-- JavaScript `Array.prototype.indexOf`: index of the first occurrence, or
`-1` when absent. -/
def jsIndexOf (profiles : List String) (x : String) : Int :=
  match profiles with
  | [] => -1
  | p :: rest =>
      if p == x then 0
      else
        let i := jsIndexOf rest x
        if i == -1 then -1 else i + 1

/-- `adjustQuality(direction)` from src/unnamed/part_000 lines 322-339,
as a function of the current profile name: move one step down when
`direction === 'down'` and the index is positive, one step up when
`direction === 'up'` and the index is below the last, otherwise keep the
current profile.  (The subsequent WIDTH/HEIGHT/FPS/PRESET refresh reads the
resulting profile and does not change it.) -/
def adjustQuality (direction : String) (currentProfile : String) : String :=
  let profiles := QUALITY_PROFILE_NAMES
  let currentIndex := jsIndexOf profiles currentProfile
  if direction == "down" && currentIndex > 0 then
    profiles.getD (currentIndex - 1).toNat currentProfile
  else if direction == "up" && currentIndex < profiles.length - 1 then
    profiles.getD (currentIndex + 1).toNat currentProfile
  else
    currentProfile

/-! ## Stream-end handling and retry classification
(src/app.js lines 300-502, `processSingleFrameLogic`)

Each handler of the supervisor resolves the caller's promise with pixels,
with `null`, or defers the resolution to a retried attempt.  The byte buffer
is modelled as a `List Nat`. -/

/-- What a handler does with the caller's promise once it runs. -/
inductive HandlerAction where
  | resolveSuccess (pixels : List (Nat × Nat × Nat))
  | resolveNull
  | retryAttempt
deriving DecidableEq, Repr

/-- The pixel-building loop of src/app.js lines 364-369 and 382-387:
`for (i = 0; i < buf.length; i += 3)` pushing a triple only when
`i + 2 < buf.length`, i.e. one triple per three complete bytes. -/
def buildPixels : List Nat → List (Nat × Nat × Nat)
  | b0 :: b1 :: b2 :: rest => (b0, b1, b2) :: buildPixels rest
  | _ => []

/-- The `end` handler of the output stream (src/app.js lines 341-401), as a
function of the accumulated buffer: empty buffer resolves `null`; an exact
buffer resolves pixels; a mismatched buffer resolves the pixels of
`buf.slice(0, expectedSize)` when `buf.length >= expectedSize * 0.9`, else
resolves `null`.  With `expectedSize = 57600`, the IEEE-double product
`expectedSize * 0.9` rounds to exactly `51840.0`, so the comparison is the
exact condition `10 * length ≥ 9 * expectedSize`. -/
def endHandler (buf : List Nat) : HandlerAction :=
  if buf.length = 0 then .resolveNull
  else if buf.length ≠ expectedSize then
    if 10 * buf.length ≥ 9 * expectedSize then
      .resolveSuccess (buildPixels (buf.take expectedSize))
    else .resolveNull
  else .resolveSuccess (buildPixels buf)

/-- Character-list comparison used by the substring search: does the needle
lead the haystack? -/
def leadsChars : List Char → List Char → Bool
  | [], _ => true
  | _ :: _, [] => false
  | a :: as, b :: bs => a == b && leadsChars as bs

/-- Substring search over a character list. -/
def hasSubChars (needle : List Char) : List Char → Bool
  | [] => needle.isEmpty
  | b :: bs => leadsChars needle (b :: bs) || hasSubChars needle bs

/-- JavaScript `s.includes(pat)`: substring containment. -/
def jsIncludes (s pat : String) : Bool :=
  hasSubChars pat.data s.data

/-- The frame-timeout handler (src/app.js lines 312-325): retries while
`retryCount < MAX_RETRIES`, otherwise resolves `null`. -/
def timeoutHandler (retryCount : Nat) : HandlerAction :=
  if retryCount < MAX_RETRIES then .retryAttempt else .resolveNull

/-- The output-stream `error` handler (src/app.js lines 403-416): retries
when budget remains and the message does not include `No such file`. -/
def streamErrorHandler (msg : String) (retryCount : Nat) : HandlerAction :=
  if retryCount < MAX_RETRIES && !(jsIncludes msg "No such file") then
    .retryAttempt
  else .resolveNull

/-- The decoder-process `error` handler (src/app.js lines 438-455): an error
is retryable when its message includes neither `No such file` nor
`Invalid data`; retries when budget remains and the error is retryable. -/
def ffmpegErrorHandler (msg : String) (retryCount : Nat) : HandlerAction :=
  let isRetryable := !(jsIncludes msg "No such file") &&
                     !(jsIncludes msg "Invalid data")
  if retryCount < MAX_RETRIES && isRetryable then .retryAttempt
  else .resolveNull

/-! ## Attempt counting (src/app.js `processSingleFrame` recursion)

Each attempt of a logical request ends in one failure mode (or success); a
retrying handler re-enters `processSingleFrame` with `retryCount + 1`.  The
sequence of per-attempt outcomes is an oracle list. -/

/-- Outcome of one attempt: success, a timeout, a stream error with its
message, a decoder error with its message, or a stream-end failure (empty
buffer / oversize mismatch), which resolves `null` with no retry branch. -/
inductive AttemptOutcome where
  | success
  | failTimeout
  | failStream (msg : String)
  | failFfmpeg (msg : String)
  | failEnd
deriving DecidableEq, Repr

/-- Does the attempt's handler re-enter `processSingleFrame`? -/
def outcomeRetries (retryCount : Nat) : AttemptOutcome → Bool
  | .success => false
  | .failTimeout => timeoutHandler retryCount == .retryAttempt
  | .failStream msg => streamErrorHandler msg retryCount == .retryAttempt
  | .failFfmpeg msg => ffmpegErrorHandler msg retryCount == .retryAttempt
  | .failEnd => false

/-- Number of attempts made for one logical request, starting at the given
`retryCount`, when the successive attempts end as the oracle list says. -/
def attemptsFrom (retryCount : Nat) : List AttemptOutcome → Nat
  | [] => 0
  | o :: rest =>
      1 + (if outcomeRetries retryCount o then attemptsFrom (retryCount + 1) rest
           else 0)

/-! ## Cleanup of an ExtractionInstance
(src/app.js lines 206-280, `createCleanupFunction`)

The closure state (`isCleanedUp`, the two timer handles, the output stream)
and the instance's entry in `activeInstances` are modelled as one record;
the signals sent and the deferred actions scheduled by a `cleanup` call are
counted so that re-running `cleanup` is observably a no-op. -/

inductive InstanceStatus where
  | starting
  | running
  | cleaningUp
deriving DecidableEq, Repr

/-- The `activeInstances` entry for this instance id (`ffmpegInstance` is
always present in an entry; `processId` only once the spawn hook ran). -/
structure InstanceInfo where
  processId : Option Nat
  status : InstanceStatus
deriving DecidableEq, Repr

structure CleanupState where
  isCleanedUp : Bool
  timeoutHandle : Bool
  cleanupTimeout : Bool
  outputStreamLive : Bool
  instanceInfo : Option InstanceInfo
  sigtermsToInstance : Nat
  sigtermsToPid : Nat
  sigkillsScheduled : Nat
  removalsScheduled : Nat
deriving DecidableEq, Repr

/-- Body of `cleanup` past the `isCleanedUp` guard (src/app.js lines
214-271): set the flag, clear both timers, destroy the stream; when the
instance is tracked, mark it `cleaning_up`, send SIGTERM via the
fluent-ffmpeg handle, and — when a pid is known — SIGTERM the pid and
schedule the SIGKILL escalation; finally schedule the deferred removal from
`activeInstances`. -/
def cleanupBody (s : CleanupState) : CleanupState :=
  let base : CleanupState :=
    { s with isCleanedUp := true, cleanupTimeout := false,
             timeoutHandle := false, outputStreamLive := false }
  match s.instanceInfo with
  | none => base
  | some info =>
      let afterTerm : CleanupState :=
        { base with instanceInfo := some { info with status := .cleaningUp },
                    sigtermsToInstance := base.sigtermsToInstance + 1 }
      let afterPid : CleanupState :=
        match info.processId with
        | none => afterTerm
        | some _ =>
            { afterTerm with sigtermsToPid := afterTerm.sigtermsToPid + 1,
                             cleanupTimeout := true,
                             sigkillsScheduled := afterTerm.sigkillsScheduled + 1 }
      { afterPid with removalsScheduled := afterPid.removalsScheduled + 1 }

/-- `cleanup` (src/app.js lines 212-272): `if (isCleanedUp) return;` then
run the body once. -/
def cleanup (s : CleanupState) : CleanupState :=
  if s.isCleanedUp then s else cleanupBody s

/-! ### The promise-settling race

The timeout, the stream `end`, the stream `error` and the decoder `error`
callbacks all race to commit the single outcome of one
`processSingleFrameLogic` promise; each first consults
`cleanupManager.isCleanedUp()` and returns when it is set, and each settling
handler raises the flag (via `cleanup`) before resolving or chaining a
retried attempt into the same promise.  `data` events only accumulate. -/

inductive SupEvent where
  | dataChunk
  | streamEnd
  | streamError
  | frameTimeout
  | ffmpegError
deriving DecidableEq, Repr

/-- Does this event's handler settle the promise when it runs first? -/
def settlingEvent : SupEvent → Bool
  | .dataChunk => false
  | _ => true

/-- One handler invocation: `(new isCleanedUp flag, promise settlements)`. -/
def handleEvent (cleanedUp : Bool) (e : SupEvent) : Bool × Nat :=
  if cleanedUp then (cleanedUp, 0)
  else if settlingEvent e then (true, 1)
  else (cleanedUp, 0)

/-- Run a sequence of racing events through the guard. -/
def runEvents (cleanedUp : Bool) : List SupEvent → Bool × Nat
  | [] => (cleanedUp, 0)
  | e :: rest =>
      let step := handleEvent cleanedUp e
      let tail := runEvents step.1 rest
      (tail.1, step.2 + tail.2)

/-! ## Frame-loop error management and result accounting
(src/app.js lines 505-583, `processFrameLoop`) -/

/-- Error management of src/app.js lines 539-545: when
`consecutiveErrors >= MAX_CONSECUTIVE_ERRORS`, set it to
`Math.floor(consecutiveErrors * 0.8)` and pause (return before extracting);
otherwise continue unchanged.  For every counter value below `2^52` the
IEEE-double computation `Math.floor(c * 0.8)` equals `c * 4 / 5` in exact
arithmetic, so the Nat expression is used.  The `Bool` records whether the
loop paused-and-returned. -/
def errorManagement (consecutiveErrors : Nat) : Nat × Bool :=
  if consecutiveErrors ≥ MAX_CONSECUTIVE_ERRORS then
    (consecutiveErrors * 4 / 5, true)
  else (consecutiveErrors, false)

/-- Scheduler-visible counters updated after an extraction
(src/app.js lines 556-570). -/
structure LoopCounters where
  consecutiveErrors : Nat
  totalFramesProcessed : Nat
  totalErrors : Nat
deriving DecidableEq, Repr

/-- JavaScript truthiness of `pixels && pixels.length > 0`. -/
def pixelsTruthy : Option (List (Nat × Nat × Nat)) → Bool
  | some ps => decide (ps.length > 0)
  | none => false

/-- Counter update of src/app.js lines 556-570: when `pixels` is non-null
and non-empty, decrement `consecutiveErrors` (floored at 0) and count a
processed frame; otherwise increment `consecutiveErrors` and `totalErrors`. -/
def loopResultUpdate (pixels : Option (List (Nat × Nat × Nat)))
    (s : LoopCounters) : LoopCounters :=
  if pixelsTruthy pixels then
    { s with consecutiveErrors := s.consecutiveErrors - 1,
             totalFramesProcessed := s.totalFramesProcessed + 1 }
  else
    { s with consecutiveErrors := s.consecutiveErrors + 1,
             totalErrors := s.totalErrors + 1 }

/-- The value `processSingleFrame` returns when the concurrency ceiling
rejects the call (src/app.js lines 285-288): `null`, the same value a
failed extraction resolves with. -/
def overloadedResult : Option (List (Nat × Nat × Nat)) := none

/-! ### The part_000 variant of the loop's error management
(src/unnamed/part_000 lines 488-526, its `processFrameLoop`) -/

structure Part000LoopState where
  currentProfile : String
  consecutiveErrors : Nat
deriving DecidableEq, Repr

/-- Error management of src/unnamed/part_000 lines 495-502: at the
threshold, call `adjustQuality('down')`, set `consecutiveErrors = 0`, and
pause (return before extracting).  The `Bool` records the pause. -/
def part000ErrorManagement (s : Part000LoopState) : Part000LoopState × Bool :=
  if s.consecutiveErrors ≥ MAX_CONSECUTIVE_ERRORS then
    ({ currentProfile := adjustQuality "down" s.currentProfile,
       consecutiveErrors := 0 }, true)
  else (s, false)

/-! ## Virtual clock (src/app.js lines 550-552)

`currentFrame = Math.floor((Date.now() - videoStartTime) / 1000 * FPS) %
(videoDurations[DEFAULT_VIDEO] * FPS)`; `currentTime = currentFrame / FPS`.
The double arithmetic is modelled over `ℚ`. -/

/-- JavaScript truncation toward zero. -/
def jsTrunc (x : ℚ) : ℤ :=
  if 0 ≤ x then ⌊x⌋ else -⌊-x⌋

/-- JavaScript remainder: `x % y = x - y * trunc(x / y)` (for `y ≠ 0`). -/
def jsMod (x y : ℚ) : ℚ :=
  x - y * jsTrunc (x / y)

/-- `currentFrame` at wall-clock `nowMs` for a start epoch `startMs` and a
media duration in seconds. -/
def currentFrameAt (nowMs startMs : ℤ) (duration : ℚ) : ℚ :=
  jsMod (⌊((nowMs - startMs : ℚ) / 1000) * (FPS : ℚ)⌋ : ℚ) (duration * (FPS : ℚ))

/-- `currentTime = currentFrame / FPS`. -/
def currentTimeAt (nowMs startMs : ℤ) (duration : ℚ) : ℚ :=
  currentFrameAt nowMs startMs duration / (FPS : ℚ)

/-! ## Helper lemmas -/

/-- The body of `cleanup` always raises the `isCleanedUp` flag. -/
theorem cleanupBody_isCleanedUp (s : CleanupState) :
    (cleanupBody s).isCleanedUp = true := by
  unfold cleanupBody
  cases s.instanceInfo with
  | none => rfl
  | some info =>
      obtain ⟨pidOpt, st⟩ := info
      cases pidOpt <;> simp

/-- A cleaned-up supervisor ignores every further event. -/
theorem runEvents_cleaned (evts : List SupEvent) :
    runEvents true evts = (true, 0) := by
  induction evts with
  | nil => rfl
  | cons e rest ih => simp [runEvents, handleEvent, ih]

/-- `buildPixels` produces one triple per three complete bytes. -/
theorem buildPixels_length : ∀ l : List Nat, (buildPixels l).length = l.length / 3
  | [] => rfl
  | [_] => by simp [buildPixels]
  | [_, _] => by simp [buildPixels]
  | _ :: _ :: _ :: rest => by
      simp only [buildPixels, List.length_cons, buildPixels_length rest]
      omega

/-- A handler only re-enters `processSingleFrame` while budget remains. -/
theorem outcomeRetries_lt (r : Nat) (o : AttemptOutcome)
    (h : outcomeRetries r o = true) : r < MAX_RETRIES := by
  by_contra hr
  cases o with
  | success => simp [outcomeRetries] at h
  | failEnd => simp [outcomeRetries] at h
  | failTimeout => simp [outcomeRetries, timeoutHandler, hr] at h
  | failStream msg => simp [outcomeRetries, streamErrorHandler, hr] at h
  | failFfmpeg msg => simp [outcomeRetries, ffmpegErrorHandler, hr] at h

/-- Attempt bound, generalized over the starting `retryCount`. -/
theorem attemptsFrom_le (l : List AttemptOutcome) :
    ∀ r : Nat, r ≤ MAX_RETRIES → attemptsFrom r l ≤ MAX_RETRIES + 1 - r := by
  induction l with
  | nil => intro r _; simp [attemptsFrom]
  | cons o rest ih =>
      intro r hr
      simp only [attemptsFrom]
      by_cases hret : outcomeRetries r o = true
      · have hlt := outcomeRetries_lt r o hret
        have htail := ih (r + 1) (by omega)
        rw [if_pos hret]
        omega
      · rw [if_neg hret]
        omega

/-- A profile name outside the `down`/`up` directions is left unchanged. -/
theorem adjustQuality_other (d c : String) (hd : d ≠ "down") (hu : d ≠ "up") :
    adjustQuality d c = c := by
  have h1 : (d == "down") = false := by simp [hd]
  have h2 : (d == "up") = false := by simp [hu]
  simp [adjustQuality, h1, h2]

/-! ## Claim theorems -/

/-- C1: Cleanup of an ExtractionInstance is idempotent: running the cleanup
path twice yields the same end state as running it once (so a second run
clears no timer, destroys no stream and sends no further termination
signal), and over any sequence of racing supervisor events the caller's
promise is settled exactly once — once when any settling event occurs, and
never after the `isCleanedUp` guard is raised. -/
theorem cleanup_idempotent_resolve_once :
    (∀ s : CleanupState, cleanup (cleanup s) = cleanup s) ∧
    (∀ evts : List SupEvent,
      (runEvents false evts).2 = if evts.any settlingEvent then 1 else 0) ∧
    (∀ evts : List SupEvent, runEvents true evts = (true, 0)) := by
  refine ⟨?_, ?_, runEvents_cleaned⟩
  · intro s
    by_cases h : s.isCleanedUp
    · simp [cleanup, h]
    · simp [cleanup, h, cleanupBody_isCleanedUp]
  · intro evts
    induction evts with
    | nil => simp [runEvents]
    | cons e rest ih =>
        by_cases hs : settlingEvent e = true
        · simp [runEvents, handleEvent, hs, runEvents_cleaned]
        · simp [runEvents, handleEvent, hs, ih]

/-- C2: The number of concurrently admitted extractions never exceeds
`MAX_CONCURRENT_FFMPEG` over any sequence of admission and completion
events; a request arriving at the ceiling is rejected and leaves the count
unchanged; and a `processSingleFrame` call returns the counter to its entry
value (the admitted slot is released exactly once in `finally`). -/
theorem concurrency_ceiling :
    (∀ events : List LimiterEvent, runLimiter events ≤ MAX_CONCURRENT_FFMPEG) ∧
    (∀ c : Nat, MAX_CONCURRENT_FFMPEG ≤ c →
      admitRequest c = false ∧ limiterStep c .request = c) ∧
    (∀ c : Nat, processSingleFrameCounter c = (admitRequest c, c)) := by
  refine ⟨?_, ?_, ?_⟩
  · have key : ∀ (l : List LimiterEvent) (c : Nat),
        c ≤ MAX_CONCURRENT_FFMPEG →
        l.foldl limiterStep c ≤ MAX_CONCURRENT_FFMPEG := by
      intro l
      induction l with
      | nil => intro c hc; simpa using hc
      | cons e rest ih =>
          intro c hc
          rw [List.foldl_cons]
          apply ih
          cases e with
          | request =>
              by_cases h : admitRequest c = true
              · have : c < MAX_CONCURRENT_FFMPEG := by
                  simpa [admitRequest] using h
                simp [limiterStep, h]
                omega
              · simp [limiterStep, h]
                exact hc
          | finish =>
              simp only [limiterStep]
              omega
    intro events
    exact key events 0 (Nat.zero_le _)
  · intro c hc
    have ha : admitRequest c = false := by
      simp [admitRequest, hc]
    exact ⟨ha, by simp [limiterStep, ha]⟩
  · intro c
    by_cases h : admitRequest c = true
    · simp [processSingleFrameCounter, h]
    · simp [processSingleFrameCounter, h]

/-- Witness for C2 at concrete inputs: two requests stay within the
ceiling, and a request arriving with the counter at the ceiling value 5 is
rejected without changing the counter. -/
theorem concurrency_ceiling_witness :
    runLimiter [.request, .request] ≤ MAX_CONCURRENT_FFMPEG ∧
    MAX_CONCURRENT_FFMPEG ≤ 5 ∧
    admitRequest 5 = false ∧ limiterStep 5 .request = 5 :=
  ⟨concurrency_ceiling.1 [.request, .request], by decide,
   (concurrency_ceiling.2.1 5 (by decide)).1,
   (concurrency_ceiling.2.1 5 (by decide)).2⟩

/-- C4: For every sequence of per-attempt failures, the number of attempts
made for a single logical request, starting at `retryCount = 0`, never
exceeds `MAX_RETRIES + 1 = 4`. -/
theorem retry_attempts_bounded (outcomes : List AttemptOutcome) :
    attemptsFrom 0 outcomes ≤ MAX_RETRIES + 1 := by
  have h := attemptsFrom_le outcomes 0 (Nat.zero_le _)
  simpa using h

/-- C3 counterexample: a buffer holding 95% of the expected bytes
(54720 of 57600) is classified as degraded-success, but the resulting pixel
array has 18240 triples — not the expected `WIDTH * HEIGHT = 19200` — so the
truncated array is NOT of exactly the expected length. -/
theorem degraded_success_not_full_length :
    endHandler (List.replicate 54720 0) =
      .resolveSuccess (buildPixels ((List.replicate 54720 0).take expectedSize)) ∧
    (buildPixels ((List.replicate 54720 (0 : Nat)).take expectedSize)).length
      = 18240 ∧
    WIDTH * HEIGHT = 19200 := by
  refine ⟨?_, ?_, by norm_num [WIDTH, HEIGHT]⟩
  · simp only [endHandler, List.length_replicate]
    norm_num [expectedSize, WIDTH, HEIGHT]
  · rw [buildPixels_length, List.length_take, List.length_replicate]
    norm_num [expectedSize, WIDTH, HEIGHT]

/-- C3 amended: on normal stream end, a non-exact buffer holding at least
90% of the expected bytes (`10·len ≥ 9·expectedSize`) is degraded-success,
yielding the complete RGB triples of `buf.slice(0, expectedSize)` — that is
`min len expectedSize / 3` triples, fewer than `WIDTH * HEIGHT` whenever the
buffer is short, with no padding to the expected length; a non-empty buffer
short of the 90% bound is a failure (`null`). -/
theorem degraded_success_truncates (buf : List Nat) :
    (9 * expectedSize ≤ 10 * buf.length → buf.length ≠ expectedSize →
      endHandler buf = .resolveSuccess (buildPixels (buf.take expectedSize)) ∧
      (buildPixels (buf.take expectedSize)).length
        = min buf.length expectedSize / 3) ∧
    (buf.length ≠ 0 → 10 * buf.length < 9 * expectedSize →
      endHandler buf = .resolveNull) := by
  constructor
  · intro h9 hne
    have hpos : ¬ buf.length = 0 := by
      intro h0
      rw [h0] at h9
      norm_num [expectedSize, WIDTH, HEIGHT] at h9
    constructor
    · simp only [endHandler]
      rw [if_neg hpos, if_pos hne, if_pos h9]
    · rw [buildPixels_length, List.length_take, Nat.min_comm]
  · intro h0 hlt
    have hne : buf.length ≠ expectedSize := by
      intro he
      rw [he] at hlt
      norm_num [expectedSize, WIDTH, HEIGHT] at hlt
    simp only [endHandler]
    rw [if_neg h0, if_pos hne, if_neg (Nat.not_le.mpr hlt)]

/-- Witness for C3 amended: a 54720-byte buffer (95%) is degraded-success
with the truncated pixel list, and a 3-byte buffer (far below 90%) is a
failure. -/
theorem degraded_success_truncates_witness :
    (9 * expectedSize ≤ 10 * (List.replicate 54720 (0 : Nat)).length ∧
      endHandler (List.replicate 54720 0) =
        .resolveSuccess (buildPixels ((List.replicate 54720 0).take expectedSize))) ∧
    ((List.replicate 3 (0 : Nat)).length ≠ 0 ∧
      endHandler (List.replicate 3 0) = .resolveNull) :=
  ⟨⟨by norm_num [expectedSize, WIDTH, HEIGHT],
    ((degraded_success_truncates (List.replicate 54720 0)).1
      (by norm_num [expectedSize, WIDTH, HEIGHT])
      (by norm_num [expectedSize, WIDTH, HEIGHT])).1⟩,
   ⟨by norm_num,
    (degraded_success_truncates (List.replicate 3 0)).2
      (by norm_num) (by norm_num [expectedSize, WIDTH, HEIGHT])⟩⟩

/-- C5 counterexample: an output-stream error whose message indicates
invalid source data IS retried when budget remains — the stream-error
handler checks only for `No such file`, not for `Invalid data`. -/
theorem stream_invalid_data_retried :
    jsIncludes "Invalid data found when processing input" "Invalid data"
      = true ∧
    streamErrorHandler "Invalid data found when processing input" 0
      = .retryAttempt ∧
    0 < MAX_RETRIES := by
  refine ⟨by decide, by decide, by decide⟩

/-- C5 amended: the decoder-process error handler never retries an error
whose message includes `No such file` or `Invalid data`; the output-stream
error handler never retries on `No such file` (but it does not test for
`Invalid data`, so such stream errors keep retrying while budget remains). -/
theorem terminal_errors_not_retried (msg : String) (r : Nat) :
    (jsIncludes msg "No such file" = true ∨ jsIncludes msg "Invalid data" = true →
      ffmpegErrorHandler msg r = .resolveNull) ∧
    (jsIncludes msg "No such file" = true →
      streamErrorHandler msg r = .resolveNull) := by
  constructor
  · rintro (h | h) <;> simp [ffmpegErrorHandler, h]
  · intro h
    simp [streamErrorHandler, h]

/-- Witness for C5 amended at a concrete missing-source message and
`retryCount = 0`. -/
theorem terminal_errors_not_retried_witness :
    jsIncludes "ffmpeg exited: No such file or directory" "No such file"
      = true ∧
    ffmpegErrorHandler "ffmpeg exited: No such file or directory" 0
      = .resolveNull ∧
    streamErrorHandler "ffmpeg exited: No such file or directory" 0
      = .resolveNull :=
  ⟨by decide,
   (terminal_errors_not_retried "ffmpeg exited: No such file or directory" 0).1
     (Or.inl (by decide)),
   (terminal_errors_not_retried "ffmpeg exited: No such file or directory" 0).2
     (by decide)⟩

/-- C6 counterexample: at the threshold the part_000 loop (the variant the
claim cites for the downgrade) resets `consecutiveErrors` fully to zero —
not partially — while the src/app.js loop (which does reset partially)
performs no downgrade at all, its quality being fixed. -/
theorem threshold_reset_is_full_in_part000 :
    part000ErrorManagement ⟨"medium", MAX_CONSECUTIVE_ERRORS⟩ =
      (⟨"low", 0⟩, true) ∧
    (part000ErrorManagement
      ⟨"medium", MAX_CONSECUTIVE_ERRORS⟩).1.consecutiveErrors = 0 ∧
    errorManagement MAX_CONSECUTIVE_ERRORS = (4, true) := by
  refine ⟨by decide, by decide, by decide⟩

/-- C6 amended: when `consecutiveErrors` reaches `MAX_CONSECUTIVE_ERRORS`,
the src/app.js loop pauses for one cooldown before any further extraction
work and resets the counter partially to `⌊0.8·c⌋` (strictly between 0 and
`c`) but performs no quality downgrade; the part_000 loop pauses and
triggers exactly one `adjustQuality('down')` step but resets the counter
fully to zero.  Below the threshold neither loop pauses or changes state. -/
theorem threshold_downgrade_and_pause (c : Nat) (p : String) :
    (MAX_CONSECUTIVE_ERRORS ≤ c →
      errorManagement c = (c * 4 / 5, true) ∧
      0 < c * 4 / 5 ∧ c * 4 / 5 < c) ∧
    (c < MAX_CONSECUTIVE_ERRORS → errorManagement c = (c, false)) ∧
    (MAX_CONSECUTIVE_ERRORS ≤ c →
      part000ErrorManagement ⟨p, c⟩ =
        (⟨adjustQuality "down" p, 0⟩, true)) := by
  refine ⟨?_, ?_, ?_⟩
  · intro h
    have h5 : 5 ≤ c := by simpa [MAX_CONSECUTIVE_ERRORS] using h
    exact ⟨by simp [errorManagement, h], by omega, by omega⟩
  · intro h
    simp [errorManagement, Nat.not_le.mpr h]
  · intro h
    simp [part000ErrorManagement, h]

/-- Witness for C6 amended at `consecutiveErrors = 6` (above threshold) and
profile `high`. -/
theorem threshold_downgrade_and_pause_witness :
    MAX_CONSECUTIVE_ERRORS ≤ 6 ∧
    errorManagement 6 = (6 * 4 / 5, true) ∧
    part000ErrorManagement ⟨"high", 6⟩ =
      (⟨adjustQuality "down" "high", 0⟩, true) :=
  ⟨by decide,
   ((threshold_downgrade_and_pause 6 "high").1 (by decide)).1,
   (threshold_downgrade_and_pause 6 "high").2.2 (by decide)⟩

/-- C7 counterexample: a ceiling rejection returns `null` — the very value a
failed extraction resolves with, so it is not a distinct outcome — and the
scheduler loop counts that `null` as a failure, incrementing both
`consecutiveErrors` (3 to 4) and `totalErrors` (2 to 3). -/
theorem overload_counted_as_failure :
    overloadedResult = none ∧
    admitRequest MAX_CONCURRENT_FFMPEG = false ∧
    loopResultUpdate overloadedResult ⟨3, 7, 2⟩ = ⟨4, 7, 3⟩ := by
  refine ⟨rfl, by decide, by decide⟩

/-- C7 amended: at the ceiling, `processSingleFrame` returns `null`
immediately — no extraction is admitted and no immediate retry is issued,
so the tick is skipped — but the returned `null` is the same value as an
extraction failure, and the scheduler loop counts it as one, incrementing
`consecutiveErrors` and `totalErrors`. -/
theorem overload_skips_tick_but_counts (c : Nat) (s : LoopCounters) :
    (MAX_CONCURRENT_FFMPEG ≤ c → processSingleFrameCounter c = (false, c)) ∧
    loopResultUpdate overloadedResult s =
      { s with consecutiveErrors := s.consecutiveErrors + 1,
               totalErrors := s.totalErrors + 1 } := by
  constructor
  · intro h
    simp [processSingleFrameCounter, admitRequest, h]
  · simp [loopResultUpdate, overloadedResult, pixelsTruthy]

/-- Witness for C7 amended at counter value 5 and zeroed loop counters. -/
theorem overload_skips_tick_but_counts_witness :
    MAX_CONCURRENT_FFMPEG ≤ 5 ∧
    processSingleFrameCounter 5 = (false, 5) ∧
    loopResultUpdate overloadedResult ⟨0, 0, 0⟩ = ⟨1, 0, 1⟩ :=
  ⟨by decide,
   (overload_skips_tick_but_counts 5 ⟨0, 0, 0⟩).1 (by decide),
   (overload_skips_tick_but_counts 5 ⟨0, 0, 0⟩).2⟩

/-- C8: for every wall-clock instant at or after the start epoch and every
positive duration, the virtual-clock position
`currentTime = (⌊elapsedSeconds · FPS⌋ mod (duration · FPS)) / FPS`
lies in the half-open interval `[0, duration)`. -/
theorem virtual_clock_in_range (nowMs startMs : ℤ) (duration : ℚ)
    (hts : startMs ≤ nowMs) (hd : 0 < duration) :
    0 ≤ currentTimeAt nowMs startMs duration ∧
    currentTimeAt nowMs startMs duration < duration := by
  have hF : (0 : ℚ) < (FPS : ℚ) := by norm_num [FPS]
  unfold currentTimeAt currentFrameAt
  set x : ℚ :=
    ((⌊((nowMs : ℚ) - (startMs : ℚ)) / 1000 * (FPS : ℚ)⌋ : ℤ) : ℚ) with hxdef
  set y : ℚ := duration * (FPS : ℚ) with hydef
  have hx0 : 0 ≤ x := by
    have helapsed : (0 : ℚ) ≤ (nowMs : ℚ) - (startMs : ℚ) := by
      have h : (startMs : ℚ) ≤ (nowMs : ℚ) := by exact_mod_cast hts
      linarith
    have hprod : (0 : ℚ) ≤ ((nowMs : ℚ) - (startMs : ℚ)) / 1000 * (FPS : ℚ) := by
      positivity
    have hfl := Int.floor_nonneg.mpr hprod
    rw [hxdef]
    exact_mod_cast hfl
  have hy0 : (0 : ℚ) < y := mul_pos hd hF
  have hxy : 0 ≤ x / y := div_nonneg hx0 hy0.le
  have htr : jsTrunc (x / y) = ⌊x / y⌋ := by
    simp [jsTrunc, hxy]
  have hmod : jsMod x y = y * Int.fract (x / y) := by
    rw [jsMod, htr, Int.fract, mul_sub, mul_div_cancel₀ x hy0.ne']
  have h1 : 0 ≤ jsMod x y := by
    rw [hmod]
    exact mul_nonneg hy0.le (Int.fract_nonneg _)
  have h2 : jsMod x y < y := by
    rw [hmod]
    calc y * Int.fract (x / y) < y * 1 :=
          mul_lt_mul_of_pos_left (Int.fract_lt_one _) hy0
      _ = y := mul_one y
  constructor
  · exact div_nonneg h1 hF.le
  · rw [div_lt_iff₀ hF]
    calc jsMod x y < y := h2
      _ = duration * (FPS : ℚ) := hydef

/-- Witness for C8 one second after a zero start epoch with a 300-second
duration: the position is 1, inside `[0, 300)`. -/
theorem virtual_clock_in_range_witness :
    0 ≤ currentTimeAt 1000 0 300 ∧ currentTimeAt 1000 0 300 < 300 :=
  virtual_clock_in_range 1000 0 300 (by norm_num) (by norm_num)

/-- C9: every `adjustQuality` call keeps the profile inside the configured
list and moves its index by at most one step (no level is skipped);
`down` at the lowest profile and `up` at the highest leave it unchanged. -/
theorem quality_adjacent_and_bounded :
    (∀ direction current : String, current ∈ QUALITY_PROFILE_NAMES →
      adjustQuality direction current ∈ QUALITY_PROFILE_NAMES ∧
      (jsIndexOf QUALITY_PROFILE_NAMES (adjustQuality direction current) -
        jsIndexOf QUALITY_PROFILE_NAMES current).natAbs ≤ 1) ∧
    adjustQuality "down" "low" = "low" ∧
    adjustQuality "up" "ultra" = "ultra" := by
  refine ⟨?_, by decide, by decide⟩
  intro d c hc
  by_cases hd : d = "down"
  · subst hd
    fin_cases hc <;> refine ⟨by decide, by decide⟩
  · by_cases hu : d = "up"
    · subst hu
      fin_cases hc <;> refine ⟨by decide, by decide⟩
    · rw [adjustQuality_other d c hd hu]
      exact ⟨hc, by simp⟩

/-- Witness for C9 one step down from `medium`. -/
theorem quality_adjacent_and_bounded_witness :
    "medium" ∈ QUALITY_PROFILE_NAMES ∧
    adjustQuality "down" "medium" ∈ QUALITY_PROFILE_NAMES ∧
    (jsIndexOf QUALITY_PROFILE_NAMES (adjustQuality "down" "medium") -
      jsIndexOf QUALITY_PROFILE_NAMES "medium").natAbs ≤ 1 :=
  ⟨by decide,
   (quality_adjacent_and_bounded.1 "down" "medium" (by decide)).1,
   (quality_adjacent_and_bounded.1 "down" "medium" (by decide)).2⟩

/-- C10: a stream that ends after delivering zero bytes resolves `null` at
once — the empty-buffer branch of the end handler has no retry path, so no
retry happens at any remaining budget — whereas a timeout or a transient
stream error at the same budget is retried. -/
theorem empty_buffer_never_retried (buf : List Nat) (r : Nat) :
    (buf.length = 0 → endHandler buf = .resolveNull ∧
      endHandler buf ≠ .retryAttempt) ∧
    (r < MAX_RETRIES → timeoutHandler r = .retryAttempt ∧
      streamErrorHandler "read ECONNRESET" r = .retryAttempt) := by
  constructor
  · intro h0
    have : endHandler buf = .resolveNull := by
      simp only [endHandler]
      rw [if_pos h0]
    exact ⟨this, by simp [this]⟩
  · intro hr
    refine ⟨by simp [timeoutHandler, hr], ?_⟩
    have hinc : jsIncludes "read ECONNRESET" "No such file" = false := by decide
    simp [streamErrorHandler, hinc, hr]

/-- Witness for C10: the empty buffer resolves `null`, while a first-attempt
timeout and a first-attempt transient stream error are retried. -/
theorem empty_buffer_never_retried_witness :
    ([] : List Nat).length = 0 ∧
    endHandler [] = .resolveNull ∧
    (0 < MAX_RETRIES ∧ timeoutHandler 0 = .retryAttempt ∧
      streamErrorHandler "read ECONNRESET" 0 = .retryAttempt) :=
  ⟨rfl,
   ((empty_buffer_never_retried [] 0).1 rfl).1,
   by decide,
   ((empty_buffer_never_retried [] 0).2 (by decide)).1,
   ((empty_buffer_never_retried [] 0).2 (by decide)).2⟩

end VideoServer
